import Mathlib

/-!
Verification of xlwings-rpc serialization, error mapping and JSON-RPC
dispatch, as a shallow embedding of the Python sources.

Layering of the embedding:

* `PyVal` is an inductive model of the (acyclic) Python values that flow
  through `xlwings_rpc/utils/converters.py`: JSON primitives, dates,
  containers, numpy arrays and scalars, pandas frames/series, and opaque
  objects of unrecognized classes (carrying the result of `str(obj)`).
  `to_serializable` and `from_json_value` are translated branch by branch
  from `converters.py`.
* A heap model (`Heap`, `to_serializable_fuel`) embeds the same
  serialization loop over mutable, possibly cyclic containers; the fuel
  argument models Python's bounded recursion (exhausted fuel corresponds
  to the `RecursionError` raised on cyclic input).
* Host-handle conversion (the `xw.App`/`Book`/`Sheet`/`Range`/`Chart`
  branches of `to_serializable`) is embedded with each attribute read
  modelled as an `Except` oracle, faithfully keeping which reads the
  source guards with try/except and which it does not; emitted warnings
  are collected in a log list.
* `errors.py` and `server.py` are embedded as `handle_exception`,
  `create_error_response`, `process_request`, `process_batch_request`
  and `handle_rpc`, with RPC method handlers abstracted as functions
  from optional params to `Except PyException PyVal`.

Floats carry an opaque rational payload: no arithmetic is ever performed
on them in the modelled code, they are only moved around and compared.
-/

/-- Model of the Python values handled by `to_serializable` in
`xlwings_rpc/utils/converters.py`. Constructor notes:
`pdatetime`/`pdate` carry the string their `isoformat()` returns;
`ndarray` carries the nested-list value its `tolist()` returns;
`dataframe` carries `index.tolist()`, `columns.tolist()` and
`values.tolist()`; `series` carries `index.tolist()` and
`values.tolist()`; `npint`/`npbool` are numpy integer/bool scalars,
which in Python 3 are NOT instances of `int`/`bool`; `npfloat64` is a
numpy float64 scalar, which IS an instance of Python `float`;
`pobj` is an object of an unrecognized class, carrying `str(obj)`. -/
inductive PyVal where
  | pnone
  | pbool (b : Bool)
  | pint (n : Int)
  | pfloat (q : Rat)
  | pstr (s : String)
  | pdatetime (iso : String)
  | pdate (iso : String)
  | plist (xs : List PyVal)
  | ptuple (xs : List PyVal)
  | pdict (kvs : List (PyVal × PyVal))
  | ndarray (t : PyVal)
  | dataframe (index : List PyVal) (columns : List PyVal) (data : List (List PyVal))
  | series (index : List PyVal) (data : List PyVal)
  | npint (n : Int)
  | npfloat64 (q : Rat)
  | npbool (b : Bool)
  | pobj (s : String)

/-- Python `str()` of a numpy bool scalar. -/
def npBoolStr (b : Bool) : String := if b then "True" else "False"

mutual

/-- Embedding of the value branches of `to_serializable`
(converters.py, lines 18-65 and the fallback at 298-299), branch by
branch in source order.  The host-handle branches of the same function
(the `xw.App`/`Book`/`Sheet`/`Range`/`Chart` cases, lines 67-296) read
attributes of live Excel objects and are embedded separately below as
`serializeApp`/`serializeBook`/`serializeSheet`/`serializeRange`/
`serializeChart` over attribute-read oracles; this function covers the
plain values those branches never receive.  The first source branch
`isinstance(obj, (bool, int, float, str))` returns the object unchanged;
it also catches numpy float64 scalars (instances of `float`), which are
therefore returned still wrapped.  Numpy integer and bool scalars match
no branch and fall through to the final `return str(obj)`.  Lists and
tuples both recurse into a Python list; dict values are recursed on
while dict keys are left untouched; `np.ndarray` recurses on its
`tolist()`; DataFrame/Series become tagged dicts of their recursively
serialized index/columns/data lists. -/
def to_serializable : PyVal → PyVal
  | .pnone => .pnone
  | .pbool b => .pbool b
  | .pint n => .pint n
  | .pfloat q => .pfloat q
  | .npfloat64 q => .npfloat64 q
  | .pstr s => .pstr s
  | .pdatetime iso => .pstr iso
  | .pdate iso => .pstr iso
  | .plist xs => .plist (serList xs)
  | .ptuple xs => .plist (serList xs)
  | .pdict kvs => .pdict (serKVs kvs)
  | .ndarray t => to_serializable t
  | .dataframe i c d =>
      .pdict [(.pstr "type", .pstr "dataframe"),
              (.pstr "index", .plist (serList i)),
              (.pstr "columns", .plist (serList c)),
              (.pstr "data", .plist (serRows d))]
  | .series i d =>
      .pdict [(.pstr "type", .pstr "series"),
              (.pstr "index", .plist (serList i)),
              (.pstr "data", .plist (serList d))]
  | .npint n => .pstr (toString n)
  | .npbool b => .pstr (npBoolStr b)
  | .pobj s => .pstr s

/-- Elementwise serialization of a Python list,
`[to_serializable(item) for item in obj]`. -/
def serList : List PyVal → List PyVal
  | [] => []
  | x :: xs => to_serializable x :: serList xs

/-- Value-wise serialization of a Python dict,
`{k: to_serializable(v) for k, v in obj.items()}`; keys are untouched. -/
def serKVs : List (PyVal × PyVal) → List (PyVal × PyVal)
  | [] => []
  | kv :: t => (kv.1, to_serializable kv.2) :: serKVs t

/-- Serialization of the row lists of `obj.values.tolist()`: each row is
a Python list and is serialized by the list branch. -/
def serRows : List (List PyVal) → List PyVal
  | [] => []
  | r :: rs => .plist (serList r) :: serRows rs

end

/-- Lookup in a Python dict modelled as an association list: the first
entry whose key equals the string `k` (`value.get(k)` / `value[k]` for a
string key). -/
def dictGetStr (kvs : List (PyVal × PyVal)) (k : String) : Option PyVal :=
  (kvs.find? (fun kv => match kv.1 with | .pstr s => s == k | _ => false)).map (·.2)

/-- Python `value.get("type") == t` for a string literal `t`: true only
when the key is present and mapped to that string. -/
def optIsStr (o : Option PyVal) (t : String) : Bool :=
  match o with
  | some (.pstr s) => s == t
  | _ => false

/-- A row of DataFrame data must be a Python list to be accepted by the
list-of-lists `pd.DataFrame` constructor. -/
def rowCells : PyVal → Option (List PyVal)
  | .plist cells => some cells
  | _ => none

/-- All rows of DataFrame data, each required to be a Python list. -/
def rowsCells : List PyVal → Option (List (List PyVal))
  | [] => some []
  | r :: rs => (rowCells r).bind fun cs => (rowsCells rs).map (cs :: ·)

/-- Modelled from pandas: `pd.DataFrame(data=…, index=…, columns=…)`
applied to a list of row lists, as `from_json_value` does
(converters.py, lines 325-329).  A shape mismatch or non-list data
raises (`ValueError`), modelled by `Except.error`. -/
def pdDataFrame (data index columns : PyVal) : Except String PyVal :=
  match data, index, columns with
  | .plist rows, .plist idx, .plist cs =>
      match rowsCells rows with
      | some rws =>
          if rws.length == idx.length && rws.all (fun r => r.length == cs.length) then
            .ok (.dataframe idx cs rws)
          else .error "DataFrame constructor: shape mismatch"
      | none => .error "DataFrame constructor: unsupported data"
  | _, _, _ => .error "DataFrame constructor: unsupported data"

/-- Modelled from pandas: `pd.Series(data=…, index=…)` applied to list
data, as `from_json_value` does (converters.py, lines 333-336). -/
def pdSeries (data index : PyVal) : Except String PyVal :=
  match data, index with
  | .plist ds, .plist idx =>
      if ds.length == idx.length then .ok (.series idx ds)
      else .error "Series constructor: shape mismatch"
  | _, _ => .error "Series constructor: unsupported data"

mutual

/-- Embedding of `from_json_value` (converters.py, lines 302-342).
Primitives (and every non-list, non-dict value, via the final
`return value`) pass through unchanged; lists are converted
elementwise; a dict tagged `"type": "dataframe"` carrying `data`,
`columns` and `index` keys is rebuilt with `pd.DataFrame` (whose
construction can raise), a dict tagged `"type": "series"` carrying
`data` and `index` with `pd.Series`, and any other dict is converted
value-wise with keys untouched.  The `getD .pnone` defaults are never
reached: the guards require the keys to be present. -/
def from_json_value : PyVal → Except String PyVal
  | .plist xs => (fjvList xs).map .plist
  | .pdict kvs =>
      if optIsStr (dictGetStr kvs "type") "dataframe"
          && ((dictGetStr kvs "data").isSome
              && ((dictGetStr kvs "columns").isSome && (dictGetStr kvs "index").isSome)) then
        pdDataFrame ((dictGetStr kvs "data").getD .pnone)
          ((dictGetStr kvs "index").getD .pnone) ((dictGetStr kvs "columns").getD .pnone)
      else if optIsStr (dictGetStr kvs "type") "series"
          && ((dictGetStr kvs "data").isSome && (dictGetStr kvs "index").isSome) then
        pdSeries ((dictGetStr kvs "data").getD .pnone) ((dictGetStr kvs "index").getD .pnone)
      else (fjvKVs kvs).map .pdict
  | v => .ok v

/-- Elementwise `from_json_value` over a Python list. -/
def fjvList : List PyVal → Except String (List PyVal)
  | [] => .ok []
  | x :: xs => (from_json_value x).bind fun v => (fjvList xs).map (v :: ·)

/-- Value-wise `from_json_value` over a Python dict; keys untouched. -/
def fjvKVs : List (PyVal × PyVal) → Except String (List (PyVal × PyVal))
  | [] => .ok []
  | kv :: t => (from_json_value kv.2).bind fun v => (fjvKVs t).map ((kv.1, v) :: ·)

end

/-- JSON-primitive values: exactly those `to_serializable` returns
unchanged by its first branch. -/
def isJsonPrim : PyVal → Bool
  | .pnone => true
  | .pbool _ => true
  | .pint _ => true
  | .pfloat _ => true
  | .pstr _ => true
  | _ => false

/-- A dataframe with a datetime cell: serialization turns the cell into
its ISO string, so the roundtrip cannot restore it. -/
def cexDf : PyVal :=
  .dataframe [.pint 0] [.pstr "a"] [[.pdatetime "2023-01-01T00:00:00"]]


/-! Heap model of serialization.

Python containers are mutable objects living on a heap and may be
cyclic (e.g. `a = []; a.append(a)`), which the inductive `PyVal` cannot
represent.  `Heap` maps addresses to objects; primitives and opaque
objects are leaves (they hold no references), lists hold element
addresses and dicts hold string-keyed value addresses.
`to_serializable_fuel` is the same serialization recursion as
`to_serializable`, reading children through the heap; the fuel argument
models Python's bounded call stack, and running out of fuel (`none`)
corresponds to the `RecursionError` the source raises on cyclic input,
since `to_serializable` has no cycle detection. -/

abbrev Addr := Nat

/-- A heap object: a primitive leaf, a list of element addresses, a
dict of string-keyed value addresses, or an opaque object whose `str()`
is `s`. -/
inductive HObj where
  | hprim (v : PyVal)
  | hlist (elems : List Addr)
  | hdict (entries : List (String × Addr))
  | hobj (s : String)

abbrev Heap := Addr → HObj

mutual

/-- Serialization over the heap with bounded recursion depth: the
primitive branch returns the value unchanged, the list and dict
branches recurse through the heap, and the fallback turns an opaque
object into its string. -/
def to_serializable_fuel (h : Heap) : Nat → Addr → Option PyVal
  | 0, _ => none
  | fuel + 1, a =>
      match h a with
      | .hprim v => some v
      | .hlist es => (serListFuel h fuel es).map .plist
      | .hdict kvs => (serKVsFuel h fuel kvs).map .pdict
      | .hobj s => some (.pstr s)
  termination_by fuel _ => (fuel, 0)

/-- Elementwise heap serialization of a list object's members. -/
def serListFuel (h : Heap) : Nat → List Addr → Option (List PyVal)
  | _, [] => some []
  | fuel, e :: es =>
      (to_serializable_fuel h fuel e).bind fun v => (serListFuel h fuel es).map (v :: ·)
  termination_by fuel es => (fuel, es.length + 1)

/-- Value-wise heap serialization of a dict object's entries. -/
def serKVsFuel (h : Heap) : Nat → List (String × Addr) → Option (List (PyVal × PyVal))
  | _, [] => some []
  | fuel, kv :: t =>
      (to_serializable_fuel h fuel kv.2).bind fun v =>
        (serKVsFuel h fuel t).map ((PyVal.pstr kv.1, v) :: ·)
  termination_by fuel kvs => (fuel, kvs.length + 1)

end

/-- A one-element cyclic list: the object at address 0 is a list whose
single element is itself (`a = []; a.append(a)`). -/
def cycHeap : Heap := fun _ => .hlist [0]

/-- Finite (acyclic) heap values, as trees: a primitive leaf, a list, a
string-keyed dict, or an opaque object. -/
inductive HTree where
  | prim (v : PyVal)
  | list (ts : List HTree)
  | dict (kvs : List (String × HTree))
  | obj (s : String)

mutual

/-- The value `to_serializable` computes on a finite tree of heap
objects (primitives unchanged, containers recursed, objects to their
string). -/
def serHTree : HTree → PyVal
  | .prim v => v
  | .list ts => .plist (serHTreeList ts)
  | .dict kvs => .pdict (serHTreeKVs kvs)
  | .obj s => .pstr s

def serHTreeList : List HTree → List PyVal
  | [] => []
  | t :: ts => serHTree t :: serHTreeList ts

def serHTreeKVs : List (String × HTree) → List (PyVal × PyVal)
  | [] => []
  | kt :: t => (.pstr kt.1, serHTree kt.2) :: serHTreeKVs t

end

mutual

/-- Address `a` denotes the finite tree `t` in heap `h`: the part of
the heap reachable from `a` is acyclic, unfolding to `t`. -/
inductive HDen (h : Heap) : Addr → HTree → Prop
  | prim {a v} : h a = .hprim v → HDen h a (.prim v)
  | obj {a s} : h a = .hobj s → HDen h a (.obj s)
  | list {a es ts} : h a = .hlist es → HDenList h es ts → HDen h a (.list ts)
  | dict {a kvs kts} : h a = .hdict kvs → HDenKVs h kvs kts → HDen h a (.dict kts)

/-- Elementwise denotation for list members. -/
inductive HDenList (h : Heap) : List Addr → List HTree → Prop
  | nil : HDenList h [] []
  | cons {e es t ts} : HDen h e t → HDenList h es ts → HDenList h (e :: es) (t :: ts)

/-- Entry-wise denotation for dict entries (keys must agree). -/
inductive HDenKVs (h : Heap) : List (String × Addr) → List (String × HTree) → Prop
  | nil : HDenKVs h [] []
  | cons {kv kvs kt kts} : kv.1 = kt.1 → HDen h kv.2 kt.2 → HDenKVs h kvs kts →
      HDenKVs h (kv :: kvs) (kt :: kts)

end

/-- A small concrete heap: address 0 is the list [7, <object>]. -/
def exHeap : Heap := fun a =>
  if a = 1 then .hprim (.pint 7) else if a = 2 then .hobj "X" else .hlist [1, 2]


/-! Exceptions, error mapping (utils/errors.py) and the JSON-RPC server
(server.py).

Python exceptions are modelled by constructor (the classes tested by
`handle_exception` are pairwise non-overlapping in Python's exception
hierarchy); each carries the text `str(e)` returns, except `keyError`,
where `str(e)` wraps the message in single quotes as CPython does.
Method handlers are abstracted as functions from the optional params
object to `Except PyException PyVal`: a handler either returns a result
value or raises. -/

/-- Exceptions distinguished by `handle_exception` plus the ones other
modelled code raises. -/
inductive PyException where
  | xlwingsError (msg : String)
  | connectionError (msg : String)
  | fileNotFoundError (msg : String)
  | valueError (msg : String)
  | permissionError (msg : String)
  | timeoutError (msg : String)
  | keyError (msg : String)
  | otherError (msg : String)

/-- A single-quote character, as a string. -/
def squo : String := (Char.ofNat 39).toString

/-- Python `str(e)` on the modelled exceptions; `str` of a `KeyError`
is the quoted key. -/
def strExc : PyException → String
  | .xlwingsError m => m
  | .connectionError m => m
  | .fileNotFoundError m => m
  | .valueError m => m
  | .permissionError m => m
  | .timeoutError m => m
  | .keyError m => squo ++ m ++ squo
  | .otherError m => m

/-- Python substring containment, `sub in hay`. -/
def strContains (hay sub : String) : Bool := decide (sub.toList <:+: hay.toList)

def PARSE_ERROR : Int := -32700
def INVALID_REQUEST : Int := -32600
def METHOD_NOT_FOUND : Int := -32601
def INVALID_PARAMS : Int := -32602
def INTERNAL_ERROR : Int := -32603
def EXCEL_NOT_FOUND : Int := -32000
def WORKBOOK_NOT_FOUND : Int := -32001
def SHEET_NOT_FOUND : Int := -32002
def RANGE_ERROR : Int := -32003
def EXCEL_ERROR : Int := -32004
def PERMISSION_ERROR : Int := -32005
def TIMEOUT_ERROR : Int := -32006
def CHART_NOT_FOUND : Int := -32007
def CHART_TYPE_ERROR : Int := -32008

/-- The `ERROR_MESSAGES` table, with the `"Unknown error"` default of
`create_error_response`. -/
def ERROR_MESSAGES (code : Int) : String :=
  if code = PARSE_ERROR then "Parse error"
  else if code = INVALID_REQUEST then "Invalid Request"
  else if code = METHOD_NOT_FOUND then "Method not found"
  else if code = INVALID_PARAMS then "Invalid params"
  else if code = INTERNAL_ERROR then "Internal error"
  else if code = EXCEL_NOT_FOUND then "Excel application not found"
  else if code = WORKBOOK_NOT_FOUND then "Workbook not found"
  else if code = SHEET_NOT_FOUND then "Sheet not found"
  else if code = RANGE_ERROR then "Range error"
  else if code = EXCEL_ERROR then "Excel error"
  else if code = PERMISSION_ERROR then "Permission denied"
  else if code = TIMEOUT_ERROR then "Operation timed out"
  else if code = CHART_NOT_FOUND then "Chart not found"
  else if code = CHART_TYPE_ERROR then "Invalid chart type"
  else "Unknown error"

/-- The `error` member of a JSON-RPC error response. -/
structure RpcError where
  code : Int
  message : String
  data : Option PyVal

/-- A JSON-RPC response object: a `result` response or an `error`
response, each carrying the `id` member (`none` models JSON null). -/
inductive RpcResponse where
  | result (r : PyVal) (id : Option PyVal)
  | error (e : RpcError) (id : Option PyVal)

/-- Embedding of `create_error_response` (errors.py, lines 48-83):
a missing message falls back to `ERROR_MESSAGES`, `data` is attached
only when present, and the response carries the given id. -/
def create_error_response (code : Int) (message : Option String) (data : Option PyVal)
    (id : Option PyVal) : RpcResponse :=
  .error { code := code, message := message.getD (ERROR_MESSAGES code), data := data } id

/-- The text of `traceback.format_exc()`, opaque in the model: it is
environment dependent and no modelled code inspects it. -/
def traceback_text : String := "traceback"

/-- Embedding of `handle_exception` (errors.py, lines 86-139): the
isinstance chain in source order, then the optional traceback data,
then `create_error_response`. -/
def handle_exception (e : PyException) (id : Option PyVal) (include_traceback : Bool) :
    RpcResponse :=
  let cm : Int × String :=
    match e with
    | .xlwingsError m => (EXCEL_ERROR, m)
    | .connectionError _ => (EXCEL_NOT_FOUND, "Failed to connect to Excel")
    | .fileNotFoundError _ => (WORKBOOK_NOT_FOUND, "File not found: " ++ strExc e)
    | .valueError m =>
        if strContains m "Chart" && strContains m "not found" then (CHART_NOT_FOUND, m)
        else if strContains m "chart type" then (CHART_TYPE_ERROR, m)
        else (INVALID_PARAMS, m)
    | .permissionError m => (PERMISSION_ERROR, m)
    | .timeoutError _ => (TIMEOUT_ERROR, "Operation timed out")
    | .keyError _ => (INTERNAL_ERROR, "Internal error: " ++ strExc e)
    | .otherError _ => (INTERNAL_ERROR, "Internal error: " ++ strExc e)
  let data : Option PyVal :=
    if include_traceback then some (.pdict [(.pstr "traceback", .pstr traceback_text)])
    else none
  create_error_response cm.1 (some cm.2) data id

/-- The error code of an error response, if it is one. -/
def respErrCode : RpcResponse → Option Int
  | .error er _ => some er.code
  | .result _ _ => none

/-- The error message of an error response, if it is one. -/
def respErrMessage : RpcResponse → Option String
  | .error er _ => some er.message
  | .result _ _ => none

/-- Specification-side classification of `handle_exception`, written
from the claim: automation-library-native error to the generic
automation code; connection failure to application-not-found; missing
file to workbook-not-found; invalid argument by message text (both
"Chart" and "not found" to chart-not-found, "chart type" to the chart
type code, otherwise invalid params); permission failure to permission
denied; timeout to timeout; anything unclassified to internal error. -/
def classified_code : PyException → Int
  | .xlwingsError _ => EXCEL_ERROR
  | .connectionError _ => EXCEL_NOT_FOUND
  | .fileNotFoundError _ => WORKBOOK_NOT_FOUND
  | .valueError m =>
      if strContains m "Chart" && strContains m "not found" then CHART_NOT_FOUND
      else if strContains m "chart type" then CHART_TYPE_ERROR
      else INVALID_PARAMS
  | .permissionError _ => PERMISSION_ERROR
  | .timeoutError _ => TIMEOUT_ERROR
  | .keyError _ => INTERNAL_ERROR
  | .otherError _ => INTERNAL_ERROR

/-- A JSON-RPC method handler, abstracted: called with the params
object (or with no argument, `none`, when params are absent or falsy)
it returns a result or raises. -/
abbrev Handler := Option PyVal → Except PyException PyVal

/-- Python truthiness of the values that can appear as a parsed
`params` member; the remaining constructors (host handles, numpy and
pandas values) cannot occur in a JSON-parsed request and are mapped to
their usual truthiness where one exists. -/
def pyTruthy : PyVal → Bool
  | .pnone => false
  | .pbool b => b
  | .pint n => n != 0
  | .pfloat q => q != 0
  | .pstr s => s != ""
  | .plist xs => !xs.isEmpty
  | .ptuple xs => !xs.isEmpty
  | .pdict kvs => !kvs.isEmpty
  | .npint n => n != 0
  | .npfloat64 q => q != 0
  | .npbool b => b
  | _ => true

/-- The fields of a JSON-RPC request envelope that `process_request`
reads: `jsonrpc` (any value, or absent), `method` (a string, or
absent), `id` (`request_data.get("id")`; `none` models both an absent
id and JSON null), and `params` (`request_data.get("params")`). -/
structure Envelope where
  jsonrpc : Option PyVal
  method : Option String
  id : Option PyVal
  params : Option PyVal

/-- A parsed entry of a request body: a JSON value that is not an
object, or a request envelope. -/
inductive RequestData where
  | notDict (v : PyVal)
  | env (e : Envelope)

/-- The handler call of `process_request`, line 114 of server.py:
`await handler(params) if params else await handler()`, where `params`
defaulted to `{}`; a falsy params object means the handler is called
with no argument. -/
def invoke_handler (handler : Handler) (params : Option PyVal) : Except PyException PyVal :=
  let p := params.getD (.pdict [])
  if pyTruthy p then handler (some p) else handler none

/-- Embedding of `process_request` (server.py, lines 84-129), with the
method registry abstracted as `lookup`.  Non-dict data and a missing
or wrong `jsonrpc` or missing `method` member give an invalid-request
error; an unregistered method gives method-not-found; then the handler
runs: on success a notification (no id) produces no response at all,
otherwise a result response; on an exception the response is always
the mapped error (with traceback), whether or not an id is present. -/
def process_request (lookup : String → Option Handler) : RequestData → Option RpcResponse
  | .notDict _ => some (create_error_response INVALID_REQUEST none none none)
  | .env e =>
      match e.jsonrpc, e.method with
      | some (.pstr ver), some m =>
          if ver = "2.0" then
            match lookup m with
            | none => some (create_error_response METHOD_NOT_FOUND none none e.id)
            | some handler =>
                match invoke_handler handler e.params with
                | .ok result =>
                    match e.id with
                    | none => none
                    | some i => some (.result result (some i))
                | .error ex => some (handle_exception ex e.id true)
          else some (create_error_response INVALID_REQUEST none none e.id)
      | _, _ => some (create_error_response INVALID_REQUEST none none e.id)

/-- The keys of the `method_dispatcher` dict (server.py, lines 43-81),
in source order. -/
def methodNames : List String :=
  ["app.list", "app.get", "app.create", "app.quit", "app.set_calculation",
   "app.get_calculation", "app.get_books",
   "book.list", "book.get", "book.open", "book.create", "book.close",
   "book.save", "book.get_sheets",
   "sheet.list", "sheet.get", "sheet.add", "sheet.delete", "sheet.rename",
   "sheet.clear", "sheet.get_used_range", "sheet.activate",
   "range.get", "range.get_value", "range.set_value", "range.get_formula",
   "range.set_formula", "range.clear", "range.get_as_dataframe",
   "range.set_dataframe"]

/-- The method registry as a lookup function: the dict maps exactly the
names in `methodNames`; the handler implementations (static methods of
the App/Book/Sheet/Range method classes) are abstracted by `impl`. -/
def method_dispatcher (impl : String → Handler) : String → Option Handler :=
  fun m => if methodNames.contains m then some (impl m) else none

/-- Embedding of `process_batch_request` (server.py, lines 132-149):
each entry is processed (asyncio.gather preserves positional order)
and the `None` responses of notifications are removed. -/
def process_batch_request (lookup : String → Option Handler) (batch : List RequestData) :
    List RpcResponse :=
  (batch.map (process_request lookup)).reduceOption

/-- A parsed JSON-RPC request body: a JSON array (batch) or a single
value. -/
inductive RpcBody where
  | arr (reqs : List RequestData)
  | single (req : RequestData)

/-- The reply of the `/rpc` endpoint: HTTP 204 with no body, or a JSON
payload holding a response list or a single response object. -/
inductive HttpReply where
  | noContent
  | payloadList (rs : List RpcResponse)
  | payloadOne (r : RpcResponse)

/-- Embedding of the parsed-body handling of `handle_rpc` (server.py,
lines 168-189): an empty array is an invalid-request error, a
non-empty batch is processed (204 when every entry was a notification),
and a single request is processed (204 when it was a notification). -/
def handle_rpc (lookup : String → Option Handler) : RpcBody → HttpReply
  | .arr reqs =>
      if reqs.isEmpty then .payloadOne (create_error_response INVALID_REQUEST none none none)
      else
        let rs := process_batch_request lookup reqs
        if rs.isEmpty then .noContent else .payloadList rs
  | .single r =>
      match process_request lookup r with
      | none => .noContent
      | some resp => .payloadOne resp

/-- Embedding of `BookAdapter.open_book` (book_adapter.py, lines
86-133): a nonexistent path raises `ValueError("File not found: …")`
(not `FileNotFoundError`); otherwise the body runs (abstracted by
`doOpen`: looking up the app, opening the workbook and serializing it)
and any exception it raises is re-raised as a wrapped `ValueError`.
The filesystem is abstracted by `fs` (`os.path.exists`). -/
def open_book (fs : String → Bool) (doOpen : String → Except PyException PyVal)
    (path : String) : Except PyException PyVal :=
  if fs path = false then .error (.valueError ("File not found: " ++ path))
  else
    match doOpen path with
    | .ok v => .ok v
    | .error e =>
        .error (.valueError ("Failed to open workbook " ++ squo ++ path ++ squo ++ ": " ++ strExc e))

/-- Embedding of `BookMethods.open` (methods/book.py, lines 48-68): it
reads `params["path"]` (raising `KeyError` when absent, modelled on a
non-dict params as a `TypeError`-like failure) and delegates to
`BookAdapter.open_book`. -/
def book_open (fs : String → Bool) (doOpen : String → Except PyException PyVal) : Handler :=
  fun params =>
    match params with
    | some (.pdict kvs) =>
        match dictGetStr kvs "path" with
        | some (.pstr path) => open_book fs doOpen path
        | some _ => .error (.otherError "TypeError: path is not a string")
        | none => .error (.keyError "path")
    | _ => .error (.keyError "path")

/-- The error code of an optional response, when it is an error
response. -/
def respCodeOf : Option RpcResponse → Option Int
  | some r => respErrCode r
  | none => none

/-- A handler that returns successfully (used to instantiate abstract
handlers at concrete inputs). -/
def okHandler : Handler := fun _ => .ok .pnone

/-- A handler that raises (used to instantiate abstract handlers at
concrete inputs). -/
def boomHandler : Handler := fun _ => .error (.otherError "boom")

/-- A registry carrying one successful and one failing registered
method. -/
def exLookup : String → Option Handler :=
  fun m => if m = "demo.ok" then some okHandler
    else if m = "demo.fail" then some boomHandler else none

/-- A filesystem on which no path exists. -/
def fsNone : String → Bool := fun _ => false

/-- An opening routine that is never reached on a missing path. -/
def doOpenUnused : String → Except PyException PyVal := fun _ => .error (.otherError "unused")

/-- A registry exposing `book.open` over the empty filesystem. -/
def bookOpenLookup : String → Option Handler :=
  fun m => if m = "book.open" then some (book_open fsNone doOpenUnused) else none

/-- A `book.open` request for a path that does not exist. -/
def missingOpenEnv : RequestData :=
  .env ⟨some (.pstr "2.0"), some "book.open", some (.pint 1),
    some (.pdict [(.pstr "path", .pstr "/missing.xlsx")])⟩

/-- Python `str.startswith`, via the character lists. -/
def strStartsWith (m pre : String) : Bool := decide (pre.toList <+: m.toList)

/-! Host-handle serialization (the `xw.App`/`Book`/`Sheet`/`Range`/
`Chart` branches of `to_serializable`, converters.py lines 67-296).

Each attribute read of a live Excel object can raise; a read is
modelled as an `Except PyException` oracle recorded in an object
structure.  Each `guarded…` combinator below is one try/except block of
the source, with its sentinel value and warning message; warnings are
collected in a log list (`logger.warning`).  The `App` branch starts
with the unguarded read `{"id": obj.pid}` and its `calculation` block
re-raises a `KeyError` whose text lacks `k.missing_value`; every other
read of every branch is guarded. -/

/-- A guarded string attribute read with sentinel `"unknown"`: on
success the field is the string, on failure the field is set to the
sentinel and one diagnostic is logged; the failure never propagates. -/
def guardedStr (v : Except PyException String) (warn : String) : PyVal × List String :=
  match v with
  | .ok s => (.pstr s, [])
  | .error e => (.pstr "unknown", [warn ++ strExc e])

/-- A guarded string attribute read with sentinel null. -/
def guardedStrOrNone (v : Except PyException String) (warn : String) : PyVal × List String :=
  match v with
  | .ok s => (.pstr s, [])
  | .error e => (.pnone, [warn ++ strExc e])

/-- A guarded bool attribute read with sentinel null. -/
def guardedBoolOrNone (v : Except PyException Bool) (warn : String) : PyVal × List String :=
  match v with
  | .ok b => (.pbool b, [])
  | .error e => (.pnone, [warn ++ strExc e])

/-- A guarded int attribute read with sentinel null. -/
def guardedIntOrNone (v : Except PyException Int) (warn : String) : PyVal × List String :=
  match v with
  | .ok n => (.pint n, [])
  | .error e => (.pnone, [warn ++ strExc e])

/-- A guarded float attribute read with sentinel null. -/
def guardedFloatOrNone (v : Except PyException Rat) (warn : String) : PyVal × List String :=
  match v with
  | .ok q => (.pfloat q, [])
  | .error e => (.pnone, [warn ++ strExc e])

/-- The guarded `app_id` read of the Book branch:
`obj.app.pid if obj.app else None`, sentinel null. -/
def guardedOptIntOrNone (v : Except PyException (Option Int)) (warn : String) :
    PyVal × List String :=
  match v with
  | .ok (some n) => (.pint n, [])
  | .ok none => (.pnone, [])
  | .error e => (.pnone, [warn ++ strExc e])

/-- The guarded `sheets` read of the Book branch:
`[sheet.name for sheet in obj.sheets]`, sentinel the empty list. -/
def guardedSheets (v : Except PyException (List String)) (warn : String) :
    PyVal × List String :=
  match v with
  | .ok l => (.plist (l.map .pstr), [])
  | .error e => (.plist [], [warn ++ strExc e])

/-- The guarded `value`/`formula` reads of the Range branch: the read
value is recursively serialized (`to_serializable(obj.value)`),
sentinel null. -/
def guardedSerialized (v : Except PyException PyVal) (warn : String) : PyVal × List String :=
  match v with
  | .ok x => (to_serializable x, [])
  | .error e => (.pnone, [warn ++ strExc e])

/-- The guarded `shape` read of the Range branch: `obj.shape` is the
tuple of row and column counts, sentinel null. -/
def guardedShape (v : Except PyException (Int × Int)) (warn : String) : PyVal × List String :=
  match v with
  | .ok rc => (.ptuple [.pint rc.1, .pint rc.2], [])
  | .error e => (.pnone, [warn ++ strExc e])

/-- The App `calculation` block (converters.py lines 85-96):
`str(obj.calculation)` guarded by an `except KeyError` clause that
turns a `k.missing_value` failure into the sentinel with a macOS
warning but re-raises any other `KeyError`, and an `except Exception`
clause that turns any other failure into the sentinel. -/
def calcField (v : Except PyException String) : Except PyException (PyVal × List String) :=
  match v with
  | .ok c => .ok (.pstr c, [])
  | .error (.keyError m) =>
      if strContains (strExc (.keyError m)) "k.missing_value" then
        .ok (.pstr "unknown",
          ["MacOS specific error: Unable to get calculation mode due to k.missing_value"])
      else .error (.keyError m)
  | .error e => .ok (.pstr "unknown", ["Error getting app calculation mode: " ++ strExc e])

/-- The attribute reads the App branch performs, as oracles. -/
structure AppObj where
  pid : Except PyException Int
  version : Except PyException String
  visible : Except PyException Bool
  calculation : Except PyException String
  screen_updating : Except PyException Bool
  display_alerts : Except PyException Bool

/-- The App branch (converters.py lines 68-110): the `id` field is the
unguarded read `obj.pid`; `version`, `visible`, `screen_updating` and
`display_alerts` are guarded; `calculation` follows `calcField`. -/
def serializeApp (a : AppObj) : Except PyException (PyVal × List String) :=
  match a.pid with
  | .error e => .error e
  | .ok p =>
      let ver := guardedStr a.version "Error getting app version: "
      let vis := guardedBoolOrNone a.visible "Error getting app visibility: "
      match calcField a.calculation with
      | .error e => .error e
      | .ok calcF =>
          let scr := guardedBoolOrNone a.screen_updating "Error getting app screen_updating: "
          let dis := guardedBoolOrNone a.display_alerts "Error getting app display_alerts: "
          .ok (.pdict [(.pstr "id", .pint p), (.pstr "version", ver.1),
                (.pstr "visible", vis.1), (.pstr "calculation", calcF.1),
                (.pstr "screen_updating", scr.1), (.pstr "display_alerts", dis.1)],
              ver.2 ++ vis.2 ++ calcF.2 ++ scr.2 ++ dis.2)

/-- The condition under which the App `calculation` block cannot
re-raise: any `KeyError` it sees carries `k.missing_value`. -/
def calcOk (a : AppObj) : Prop :=
  ∀ m, a.calculation = .error (.keyError m) →
    strContains (strExc (.keyError m)) "k.missing_value" = true

/-- The attribute reads the Book branch performs; `path` is the second,
separate read of `obj.fullname`. -/
structure BookObj where
  name : Except PyException String
  fullname : Except PyException String
  path : Except PyException String
  app_id : Except PyException (Option Int)
  sheets : Except PyException (List String)

/-- The Book branch (converters.py lines 113-146): every read is
guarded; sentinels are `"unknown"` for `name`, null for `fullname`,
`path` and `app_id`, and the empty list for `sheets`. -/
def serializeBook (b : BookObj) : PyVal × List String :=
  let nameF := guardedStr b.name "Error getting book name: "
  let fullF := guardedStrOrNone b.fullname "Error getting book fullname: "
  let pathF := guardedStrOrNone b.path "Error getting book path: "
  let appF := guardedOptIntOrNone b.app_id "Error getting book app_id: "
  let shF := guardedSheets b.sheets "Error getting book sheets: "
  (.pdict [(.pstr "name", nameF.1), (.pstr "fullname", fullF.1), (.pstr "path", pathF.1),
      (.pstr "app_id", appF.1), (.pstr "sheets", shF.1)],
    nameF.2 ++ fullF.2 ++ pathF.2 ++ appF.2 ++ shF.2)

/-- The attribute reads the Sheet branch performs. -/
structure SheetObj where
  name : Except PyException String
  book_name : Except PyException String
  index : Except PyException Int
  used_range : Except PyException String

/-- The Sheet branch (converters.py lines 149-176): every read is
guarded; sentinels are `"unknown"` for `name` and null for the rest. -/
def serializeSheet (s : SheetObj) : PyVal × List String :=
  let nameF := guardedStr s.name "Error getting sheet name: "
  let bookF := guardedStrOrNone s.book_name "Error getting sheet book_name: "
  let idxF := guardedIntOrNone s.index "Error getting sheet index: "
  let urF := guardedStrOrNone s.used_range "Error getting sheet used_range: "
  (.pdict [(.pstr "name", nameF.1), (.pstr "book_name", bookF.1), (.pstr "index", idxF.1),
      (.pstr "used_range", urF.1)],
    nameF.2 ++ bookF.2 ++ idxF.2 ++ urF.2)

/-- The attribute reads the Range branch performs. -/
structure RangeObj where
  address : Except PyException String
  sheet_name : Except PyException String
  book_name : Except PyException String
  value : Except PyException PyVal
  formula : Except PyException PyVal
  shape : Except PyException (Int × Int)
  row : Except PyException Int
  column : Except PyException Int
  row_height : Except PyException Rat
  column_width : Except PyException Rat

/-- The Range branch (converters.py lines 179-242): every read is
guarded; `value` and `formula` are recursively serialized; sentinels
are `"unknown"` for `address` and null for the rest. -/
def serializeRange (r : RangeObj) : PyVal × List String :=
  let adF := guardedStr r.address "Error getting range address: "
  let snF := guardedStrOrNone r.sheet_name "Error getting range sheet_name: "
  let bnF := guardedStrOrNone r.book_name "Error getting range book_name: "
  let vaF := guardedSerialized r.value "Error getting range value: "
  let foF := guardedSerialized r.formula "Error getting range formula: "
  let shF := guardedShape r.shape "Error getting range shape: "
  let roF := guardedIntOrNone r.row "Error getting range row: "
  let coF := guardedIntOrNone r.column "Error getting range column: "
  let rhF := guardedFloatOrNone r.row_height "Error getting range row_height: "
  let cwF := guardedFloatOrNone r.column_width "Error getting range column_width: "
  (.pdict [(.pstr "address", adF.1), (.pstr "sheet_name", snF.1), (.pstr "book_name", bnF.1),
      (.pstr "value", vaF.1), (.pstr "formula", foF.1), (.pstr "shape", shF.1),
      (.pstr "row", roF.1), (.pstr "column", coF.1), (.pstr "row_height", rhF.1),
      (.pstr "column_width", cwF.1)],
    adF.2 ++ snF.2 ++ bnF.2 ++ vaF.2 ++ foF.2 ++ shF.2 ++ roF.2 ++ coF.2 ++ rhF.2 ++ cwF.2)

/-- The jointly guarded parent-info block of the Chart branch
(converters.py lines 260-269): when the parent is present its sheet
name is recorded (and the book name when the parent has a book); when
the parent is falsy no keys are written at all; when any of the reads
raises, both keys are set to null under a single diagnostic. -/
def chartParentEntries (v : Except PyException (Option (String × Option String))) :
    List (PyVal × PyVal) × List String :=
  match v with
  | .ok none => ([], [])
  | .ok (some (sn, obn)) =>
      ((.pstr "sheet_name", .pstr sn) ::
        (match obn with
         | some bn => [(.pstr "book_name", .pstr bn)]
         | none => []), [])
  | .error e =>
      ([(.pstr "sheet_name", .pnone), (.pstr "book_name", .pnone)],
        ["Error getting chart parent info: " ++ strExc e])

/-- The attribute reads the Chart branch performs; `parent` bundles the
jointly guarded parent-info block. -/
structure ChartObj where
  name : Except PyException String
  chart_type : Except PyException String
  parent : Except PyException (Option (String × Option String))
  left : Except PyException Rat
  top : Except PyException Rat
  width : Except PyException Rat
  height : Except PyException Rat

/-- The Chart branch (converters.py lines 245-296): every read is
guarded; sentinels are `"unknown"` for `name` and `chart_type` and
null for positions and sizes; the parent block is jointly guarded. -/
def serializeChart (c : ChartObj) : PyVal × List String :=
  let nameF := guardedStr c.name "Error getting chart name: "
  let ctF := guardedStr c.chart_type "Error getting chart type: "
  let paF := chartParentEntries c.parent
  let leF := guardedFloatOrNone c.left "Error getting chart left position: "
  let toF := guardedFloatOrNone c.top "Error getting chart top position: "
  let wiF := guardedFloatOrNone c.width "Error getting chart width: "
  let heF := guardedFloatOrNone c.height "Error getting chart height: "
  (.pdict ([(.pstr "name", nameF.1), (.pstr "chart_type", ctF.1)] ++ paF.1 ++
      [(.pstr "left", leF.1), (.pstr "top", toF.1), (.pstr "width", wiF.1),
       (.pstr "height", heF.1)]),
    nameF.2 ++ ctF.2 ++ paF.2 ++ leF.2 ++ toF.2 ++ wiF.2 ++ heF.2)

/-- An App handle whose `pid` read raises: the only unguarded read. -/
def appPidBoom : AppObj :=
  { pid := .error (.otherError "COM failure")
    version := .ok "16.0"
    visible := .ok true
    calculation := .ok "manual"
    screen_updating := .ok true
    display_alerts := .ok true }

/-- An App handle on which every read succeeds. -/
def appAllOk : AppObj :=
  { pid := .ok 7
    version := .ok "16.0"
    visible := .ok true
    calculation := .ok "manual"
    screen_updating := .ok true
    display_alerts := .ok true }

/-- A healthy Range handle on which every attribute read succeeds; its
`shape` read returns the tuple `(2, 3)`, which the Range branch stores
raw (converters.py line 213). -/
def rangeAllOk : RangeObj :=
  { address := .ok "$A$1:$C$2"
    sheet_name := .ok "Sheet1"
    book_name := .ok "Book1"
    value := .ok (.pfloat 1)
    formula := .ok (.pstr "=1")
    shape := .ok (2, 3)
    row := .ok 1
    column := .ok 1
    row_height := .ok 15
    column_width := .ok 10 }
theorem serList_eq_map (xs : List PyVal) : serList xs = xs.map to_serializable := by
  induction xs <;> simp_all [serList]

theorem serRows_eq_map (d : List (List PyVal)) :
    serRows d = d.map (fun r => PyVal.plist (serList r)) := by
  induction d <;> simp_all [serRows]

/-- Sanity: the `data` entry of the DataFrame branch is literally
`to_serializable(obj.values.tolist())` from the source, i.e. serializing
the wrapped list of row lists gives the list of serialized rows. -/
theorem ser_values_tolist (d : List (List PyVal)) :
    to_serializable (.plist (d.map PyVal.plist)) = .plist (serRows d) := by
  induction d with
  | nil => simp [to_serializable, serList, serRows]
  | cons r rs ih =>
      simp only [to_serializable, List.map_cons, serList, serRows] at *
      simpa using ih

mutual

theorem to_serializable_idem :
    ∀ v, to_serializable (to_serializable v) = to_serializable v
  | .pnone => rfl
  | .pbool _ => rfl
  | .pint _ => rfl
  | .pfloat _ => rfl
  | .npfloat64 _ => rfl
  | .pstr _ => rfl
  | .pdatetime _ => rfl
  | .pdate _ => rfl
  | .plist xs => by simp [to_serializable, serList_idem xs]
  | .ptuple xs => by simp [to_serializable, serList_idem xs]
  | .pdict kvs => by simp [to_serializable, serKVs_idem kvs]
  | .ndarray t => by simp [to_serializable, to_serializable_idem t]
  | .dataframe i c d => by
      simp [to_serializable, serKVs, serList_idem i, serList_idem c, serRows_idem d]
  | .series i d => by
      simp [to_serializable, serKVs, serList_idem i, serList_idem d]
  | .npint _ => rfl
  | .npbool _ => rfl
  | .pobj _ => rfl

theorem serList_idem : ∀ xs, serList (serList xs) = serList xs
  | [] => rfl
  | x :: xs => by simp [serList, to_serializable_idem x, serList_idem xs]

theorem serKVs_idem : ∀ kvs, serKVs (serKVs kvs) = serKVs kvs
  | [] => rfl
  | kv :: t => by simp [serKVs, to_serializable_idem kv.2, serKVs_idem t]

theorem serRows_idem : ∀ d, serList (serRows d) = serRows d
  | [] => rfl
  | r :: rs => by simp [serRows, serList, to_serializable, serList_idem r, serRows_idem rs]

end

/-- C6 (amended): serialize (to_serializable) is idempotent on every
handle-free representable value x: serialize(serialize(x)) ==
serialize(x) for all values built from primitives, dates, containers,
numpy and pandas data and opaque objects.  It is not idempotent on
every representable value: the dict the Range handle branch produces
holds a raw tuple, which a second serialization rewrites (see the
counterexample below). -/
theorem serialize_idempotent (x : PyVal) :
    to_serializable (to_serializable x) = to_serializable x :=
  to_serializable_idem x

/-- C6 (counterexample): serialize is not idempotent on every
representable value.  At a healthy Range handle, the first application
of serialize is the Range branch, which stores the raw `obj.shape`
tuple in the result dict (converters.py line 213); applying serialize
to that dict again sends the tuple through the list branch, turning it
into a list, so the second application changes the value:
serialize(serialize(x)) != serialize(x) at x = the Range handle. -/
theorem serialize_idempotent_cex :
    to_serializable (serializeRange rangeAllOk).1 ≠ (serializeRange rangeAllOk).1 := by
  simp [serializeRange, rangeAllOk, guardedStr, guardedStrOrNone, guardedSerialized,
    guardedShape, guardedIntOrNone, guardedFloatOrNone, to_serializable, serKVs, serList]

theorem to_serializable_of_prim {x : PyVal} (h : isJsonPrim x = true) :
    to_serializable x = x := by
  cases x <;> simp_all [isJsonPrim, to_serializable]

theorem serList_of_prim {xs : List PyVal} (h : ∀ x ∈ xs, isJsonPrim x = true) :
    serList xs = xs := by
  induction xs with
  | nil => rfl
  | cons x t ih =>
      simp only [serList]
      rw [to_serializable_of_prim (h x (by simp)), ih (fun y hy => h y (by simp [hy]))]

theorem rowsCells_map_plist (d : List (List PyVal)) :
    rowsCells (d.map PyVal.plist) = some d := by
  induction d with
  | nil => rfl
  | cons r rs ih => simp [rowsCells, rowCells, ih]

/-- C7 (amended): for every rectangular labeled table whose labels and
cells are JSON-primitive values, deserialize (from_json_value) after
serialize (to_serializable) reconstructs a dataframe with identical row
labels, column labels and cell values. -/
theorem dataframe_roundtrip_prim (i c : List PyVal) (d : List (List PyVal))
    (hi : ∀ x ∈ i, isJsonPrim x = true) (hc : ∀ x ∈ c, isJsonPrim x = true)
    (hd : ∀ r ∈ d, ∀ x ∈ r, isJsonPrim x = true)
    (hrows : d.length = i.length) (hrect : ∀ r ∈ d, r.length = c.length) :
    from_json_value (to_serializable (.dataframe i c d)) = .ok (.dataframe i c d) := by
  have hsi : serList i = i := serList_of_prim hi
  have hsc : serList c = c := serList_of_prim hc
  have hsd : serRows d = d.map PyVal.plist := by
    rw [serRows_eq_map]
    exact List.map_congr_left fun r hr => by rw [serList_of_prim (hd r hr)]
  simp only [to_serializable, hsi, hsc, hsd, from_json_value, dictGetStr, List.find?,
    optIsStr, pdDataFrame]
  simp [dictGetStr, optIsStr, pdDataFrame, rowsCells_map_plist, hrows, List.all_eq_true]
  exact hrect

/-- C7 (counterexample): the roundtrip is not the identity on every
rectangular labeled table: a dataframe holding a datetime cell comes
back with the ISO string in place of the datetime. -/
theorem dataframe_roundtrip_cex :
    from_json_value (to_serializable cexDf) ≠ Except.ok cexDf := by
  simp [cexDf, to_serializable, serList, serRows, from_json_value, dictGetStr,
    optIsStr, pdDataFrame, rowsCells, rowCells]

theorem cycHeap_no_fuel : ∀ fuel, to_serializable_fuel cycHeap fuel 0 = none := by
  intro fuel
  induction fuel with
  | zero => simp [to_serializable_fuel]
  | succ n ih => simp [to_serializable_fuel, cycHeap, serListFuel, ih]

/-- C3 (counterexample): serialize is not total on every input: on the
cyclic list it never produces a value for any recursion depth (in
CPython the call raises `RecursionError`). -/
theorem serialize_total_cex :
    ¬ ∀ (h : Heap) (a : Addr), ∃ fuel, (to_serializable_fuel h fuel a).isSome = true := by
  intro H
  rcases H cycHeap 0 with ⟨fuel, hf⟩
  rw [cycHeap_no_fuel fuel] at hf
  simp at hf

theorem to_serializable_fuel_mono_step (h : Heap) :
    ∀ fuel, (∀ a v, to_serializable_fuel h fuel a = some v →
      to_serializable_fuel h (fuel + 1) a = some v) := by
  intro fuel
  induction fuel with
  | zero => intro a v hv; simp [to_serializable_fuel] at hv
  | succ n ih =>
      have hl : ∀ es vs, serListFuel h n es = some vs → serListFuel h (n + 1) es = some vs := by
        intro es
        induction es with
        | nil => intro vs hv; simpa [serListFuel] using hv
        | cons e t iht =>
            intro vs hv
            simp only [serListFuel, Option.bind_eq_some, Option.map_eq_some'] at hv ⊢
            rcases hv with ⟨v1, hv1, vs1, hvs1, rfl⟩
            exact ⟨v1, ih e v1 hv1, vs1, iht vs1 hvs1, rfl⟩
      have hk : ∀ kvs vs, serKVsFuel h n kvs = some vs → serKVsFuel h (n + 1) kvs = some vs := by
        intro kvs
        induction kvs with
        | nil => intro vs hv; simpa [serKVsFuel] using hv
        | cons kv t iht =>
            intro vs hv
            simp only [serKVsFuel, Option.bind_eq_some, Option.map_eq_some'] at hv ⊢
            rcases hv with ⟨v1, hv1, vs1, hvs1, rfl⟩
            exact ⟨v1, ih kv.2 v1 hv1, vs1, iht vs1 hvs1, rfl⟩
      intro a v hv
      simp only [to_serializable_fuel] at hv ⊢
      cases hobj : h a with
      | hprim w => rw [hobj] at hv; simp_all
      | hobj s => rw [hobj] at hv; simp_all
      | hlist es =>
          rw [hobj] at hv
          simp only [Option.map_eq_some'] at hv ⊢
          rcases hv with ⟨vs, hvs, rfl⟩
          exact ⟨vs, hl es vs hvs, rfl⟩
      | hdict kvs =>
          rw [hobj] at hv
          simp only [Option.map_eq_some'] at hv ⊢
          rcases hv with ⟨vs, hvs, rfl⟩
          exact ⟨vs, hk kvs vs hvs, rfl⟩

theorem to_serializable_fuel_mono (h : Heap) {fuel fuel' : Nat} (hle : fuel ≤ fuel') :
    ∀ a v, to_serializable_fuel h fuel a = some v → to_serializable_fuel h fuel' a = some v := by
  induction fuel', hle using Nat.le_induction with
  | base => exact fun a v hv => hv
  | succ m _ ih => exact fun a v hv => to_serializable_fuel_mono_step h m a v (ih a v hv)

theorem serListFuel_mono (h : Heap) {fuel fuel' : Nat} (hle : fuel ≤ fuel') :
    ∀ es vs, serListFuel h fuel es = some vs → serListFuel h fuel' es = some vs := by
  intro es
  induction es with
  | nil => intro vs hv; simpa [serListFuel] using hv
  | cons e t iht =>
      intro vs hv
      simp only [serListFuel, Option.bind_eq_some, Option.map_eq_some'] at hv ⊢
      rcases hv with ⟨v1, hv1, vs1, hvs1, rfl⟩
      exact ⟨v1, to_serializable_fuel_mono h hle e v1 hv1, vs1, iht vs1 hvs1, rfl⟩

theorem serKVsFuel_mono (h : Heap) {fuel fuel' : Nat} (hle : fuel ≤ fuel') :
    ∀ kvs vs, serKVsFuel h fuel kvs = some vs → serKVsFuel h fuel' kvs = some vs := by
  intro kvs
  induction kvs with
  | nil => intro vs hv; simpa [serKVsFuel] using hv
  | cons kv t iht =>
      intro vs hv
      simp only [serKVsFuel, Option.bind_eq_some, Option.map_eq_some'] at hv ⊢
      rcases hv with ⟨v1, hv1, vs1, hvs1, rfl⟩
      exact ⟨v1, to_serializable_fuel_mono h hle kv.2 v1 hv1, vs1, iht vs1 hvs1, rfl⟩

mutual

theorem hden_ser (h : Heap) :
    ∀ t a, HDen h a t → ∃ fuel, to_serializable_fuel h fuel a = some (serHTree t)
  | .prim v, a => fun hd => by
      cases hd with
      | prim ha => exact ⟨1, by simp [to_serializable_fuel, ha, serHTree]⟩
  | .obj s, a => fun hd => by
      cases hd with
      | obj ha => exact ⟨1, by simp [to_serializable_fuel, ha, serHTree]⟩
  | .list ts, a => fun hd => by
      cases hd with
      | list ha hds =>
          rcases hden_ser_list h ts _ hds with ⟨fuel, hlst⟩
          exact ⟨fuel + 1, by simp [to_serializable_fuel, ha, hlst, serHTree]⟩
  | .dict kts, a => fun hd => by
      cases hd with
      | dict ha hds =>
          rcases hden_ser_kvs h kts _ hds with ⟨fuel, hlst⟩
          exact ⟨fuel + 1, by simp [to_serializable_fuel, ha, hlst, serHTree]⟩

theorem hden_ser_list (h : Heap) :
    ∀ ts es, HDenList h es ts → ∃ fuel, serListFuel h fuel es = some (serHTreeList ts)
  | [], _ => fun hd => by
      cases hd with
      | nil => exact ⟨0, by simp [serListFuel, serHTreeList]⟩
  | t :: ts, _ => fun hd => by
      cases hd with
      | cons hd1 hd2 =>
          rcases hden_ser h t _ hd1 with ⟨f1, h1⟩
          rcases hden_ser_list h ts _ hd2 with ⟨f2, h2⟩
          refine ⟨max f1 f2, ?_⟩
          have h1' := to_serializable_fuel_mono h (Nat.le_max_left f1 f2) _ _ h1
          have h2' := serListFuel_mono h (Nat.le_max_right f1 f2) _ _ h2
          simp [serListFuel, h1', h2', serHTreeList]

theorem hden_ser_kvs (h : Heap) :
    ∀ kts kvs, HDenKVs h kvs kts → ∃ fuel, serKVsFuel h fuel kvs = some (serHTreeKVs kts)
  | [], _ => fun hd => by
      cases hd with
      | nil => exact ⟨0, by simp [serKVsFuel, serHTreeKVs]⟩
  | kt :: kts, _ => fun hd => by
      cases hd with
      | cons hkey hd1 hd2 =>
          rcases hden_ser h kt.2 _ hd1 with ⟨f1, h1⟩
          rcases hden_ser_kvs h kts _ hd2 with ⟨f2, h2⟩
          refine ⟨max f1 f2, ?_⟩
          have h1' := to_serializable_fuel_mono h (Nat.le_max_left f1 f2) _ _ h1
          have h2' := serKVsFuel_mono h (Nat.le_max_right f1 f2) _ _ h2
          simp [serKVsFuel, h1', h2', serHTreeKVs, hkey]

end

/-- C3 (amended): serialize is total on every finite (acyclic) heap
value: whenever an address denotes a finite tree, some recursion depth
suffices and the result is the expected serialization, with opaque
objects falling back to their string representation; on a cyclic
container no depth suffices (see the counterexample). -/
theorem serialize_total_on_acyclic (h : Heap) (a : Addr) (t : HTree) (hd : HDen h a t) :
    ∃ fuel, to_serializable_fuel h fuel a = some (serHTree t) :=
  hden_ser h t a hd

/-- Witness for the amended C3 theorem on the concrete heap. -/
theorem serialize_total_on_acyclic_witness :
    ∃ fuel, to_serializable_fuel exHeap fuel 0 =
      some (serHTree (.list [.prim (.pint 7), .obj "X"])) :=
  serialize_total_on_acyclic exHeap 0 (.list [.prim (.pint 7), .obj "X"])
    (HDen.list rfl (HDenList.cons (HDen.prim rfl)
      (HDenList.cons (HDen.obj rfl) HDenList.nil)))

theorem string_toList_append (p m : String) : (p ++ m).toList = p.toList ++ m.toList := rfl

theorem strContains_append_right (p m : String) : strContains (p ++ m) m = true := by
  simp only [strContains, string_toList_append, decide_eq_true_eq]
  exact (List.suffix_append p.toList m.toList).isInfix

/-- C2: for every exception, classification follows the claimed
precedence (xlwings-native, connection, missing file, invalid argument
with the chart message heuristics, permission, timeout, fallback), and
an unclassified exception maps to internal-error with a message that
includes the original failure text. -/
theorem exception_classification (e : PyException) (id : Option PyVal) :
    respErrCode (handle_exception e id true) = some (classified_code e) ∧
    (classified_code e = INTERNAL_ERROR →
      ∃ msg, respErrMessage (handle_exception e id true) = some msg ∧
        strContains msg (strExc e) = true) := by
  constructor
  · cases e <;>
      simp [handle_exception, create_error_response, respErrCode, classified_code] <;>
      split_ifs <;> rfl
  · cases e <;>
      simp [handle_exception, create_error_response, respErrMessage, classified_code,
        INTERNAL_ERROR, EXCEL_ERROR, EXCEL_NOT_FOUND, WORKBOOK_NOT_FOUND, PERMISSION_ERROR,
        TIMEOUT_ERROR, CHART_NOT_FOUND, CHART_TYPE_ERROR, INVALID_PARAMS,
        strContains_append_right] <;>
      split_ifs <;> simp_all

/-- Witness for C2 at a concrete unclassified exception. -/
theorem exception_classification_witness :
    respErrCode (handle_exception (.otherError "boom") none true) =
        some (classified_code (.otherError "boom")) ∧
      (classified_code (.otherError "boom") = INTERNAL_ERROR →
        ∃ msg, respErrMessage (handle_exception (.otherError "boom") none true) = some msg ∧
          strContains msg (strExc (.otherError "boom")) = true) :=
  exception_classification (.otherError "boom") none

/-- C1: for a request envelope with a registered method: with no id and
a successful handler, dispatch produces no response at all; with the
handler raising, dispatch produces exactly one response, the mapped
error response, whether or not an id is present. -/
theorem notification_dispatch (lookup : String → Option Handler) (m : String)
    (handler : Handler) (params : Option PyVal) (hm : lookup m = some handler) :
    (∀ r, invoke_handler handler params = .ok r →
      process_request lookup (.env ⟨some (.pstr "2.0"), some m, none, params⟩) = none) ∧
    (∀ e id, invoke_handler handler params = .error e →
      process_request lookup (.env ⟨some (.pstr "2.0"), some m, id, params⟩) =
        some (handle_exception e id true) ∧
      ∃ er, handle_exception e id true = RpcResponse.error er id) := by
  constructor
  · intro r hr
    simp [process_request, hm, hr]
  · intro e id he
    refine ⟨by simp [process_request, hm, he], ?_⟩
    cases e <;> simp [handle_exception, create_error_response]

/-- Witness for C1: a concrete notification with a successful handler
produces nothing; the same envelope with a failing handler produces the
error response. -/
theorem notification_dispatch_witness :
    ((∀ r, invoke_handler okHandler none = .ok r →
        process_request exLookup (.env ⟨some (.pstr "2.0"), some "demo.ok", none, none⟩) = none) ∧
      (∀ e id, invoke_handler okHandler none = .error e →
        process_request exLookup (.env ⟨some (.pstr "2.0"), some "demo.ok", id, none⟩) =
          some (handle_exception e id true) ∧
        ∃ er, handle_exception e id true = RpcResponse.error er id)) ∧
    ((∀ r, invoke_handler boomHandler none = .ok r →
        process_request exLookup (.env ⟨some (.pstr "2.0"), some "demo.fail", none, none⟩) = none) ∧
      (∀ e id, invoke_handler boomHandler none = .error e →
        process_request exLookup (.env ⟨some (.pstr "2.0"), some "demo.fail", id, none⟩) =
          some (handle_exception e id true) ∧
        ∃ er, handle_exception e id true = RpcResponse.error er id)) :=
  ⟨notification_dispatch exLookup "demo.ok" okHandler none rfl,
   notification_dispatch exLookup "demo.fail" boomHandler none rfl⟩

theorem reduceOption_all_isSome {α : Type} (l : List (Option α))
    (h : ∀ x ∈ l, x.isSome = true) : l = l.reduceOption.map some := by
  induction l with
  | nil => rfl
  | cons x t ih =>
      cases x with
      | none => exact absurd (h none (by simp)) (by simp)
      | some a =>
          simp only [List.reduceOption_cons_of_some, List.map_cons]
          exact congrArg _ (ih fun y hy => h y (by simp [hy]))

theorem reduceOption_map_some_sublist {α : Type} (l : List (Option α)) :
    (l.reduceOption.map some).Sublist l := by
  induction l with
  | nil => simp
  | cons x t ih =>
      cases x with
      | none =>
          rw [List.reduceOption_cons_of_none]
          exact List.Sublist.cons none ih
      | some a =>
          rw [List.reduceOption_cons_of_some]
          simp only [List.map_cons]
          exact List.Sublist.cons₂ (some a) ih

theorem reduceOption_length_add_countP {α : Type} (l : List (Option α)) :
    l.reduceOption.length + l.countP (fun o => o.isNone) = l.length := by
  induction l with
  | nil => simp
  | cons x t ih =>
      cases x with
      | none => simp [List.reduceOption_cons_of_none, List.countP_cons, ← ih]; omega
      | some a => simp [List.reduceOption_cons_of_some, List.countP_cons, ← ih]; omega

/-- C4: batch responses are positionally ordered: when every entry
produces a response the output lines up one-to-one with the input; in
general the output is an order-preserving subsequence of the per-entry
results in which exactly the no-response (notification) entries were
dropped; and an empty batch yields a single invalid-request error
object, not an empty batch. -/
theorem batch_order (lookup : String → Option Handler) (reqs : List RequestData) :
    ((∀ r ∈ reqs, (process_request lookup r).isSome = true) →
      reqs.map (process_request lookup) = (process_batch_request lookup reqs).map some) ∧
    ((process_batch_request lookup reqs).map some).Sublist (reqs.map (process_request lookup)) ∧
    (process_batch_request lookup reqs).length +
        (reqs.map (process_request lookup)).countP (fun o => o.isNone) = reqs.length ∧
    handle_rpc lookup (.arr []) =
      .payloadOne (create_error_response INVALID_REQUEST none none none) := by
  refine ⟨?_, ?_, ?_, ?_⟩
  · intro h
    exact reduceOption_all_isSome _ (by simpa using h)
  · exact reduceOption_map_some_sublist _
  · simpa using reduceOption_length_add_countP (reqs.map (process_request lookup))
  · simp [handle_rpc]

/-- Witness for C4 on a concrete two-request batch (one result, one
notification). -/
theorem batch_order_witness :
    ((∀ r ∈ [RequestData.env ⟨some (.pstr "2.0"), some "demo.ok", some (.pint 1), none⟩],
        (process_request exLookup r).isSome = true) →
      [RequestData.env ⟨some (.pstr "2.0"), some "demo.ok", some (.pint 1), none⟩].map
          (process_request exLookup) =
        (process_batch_request exLookup
          [RequestData.env ⟨some (.pstr "2.0"), some "demo.ok", some (.pint 1), none⟩]).map some) ∧
    ((process_batch_request exLookup
        [RequestData.env ⟨some (.pstr "2.0"), some "demo.ok", some (.pint 1), none⟩]).map
          some).Sublist
      ([RequestData.env ⟨some (.pstr "2.0"), some "demo.ok", some (.pint 1), none⟩].map
        (process_request exLookup)) ∧
    (process_batch_request exLookup
        [RequestData.env ⟨some (.pstr "2.0"), some "demo.ok", some (.pint 1), none⟩]).length +
      ([RequestData.env ⟨some (.pstr "2.0"), some "demo.ok", some (.pint 1), none⟩].map
        (process_request exLookup)).countP (fun o => o.isNone) = 1 ∧
    handle_rpc exLookup (.arr []) =
      .payloadOne (create_error_response INVALID_REQUEST none none none) :=
  batch_order exLookup [RequestData.env ⟨some (.pstr "2.0"), some "demo.ok", some (.pint 1), none⟩]

/-- C10: the method registry has no chart methods: no registered name
starts with "chart.", and dispatching any valid envelope whose method
is a chart method yields the method-not-found error response. -/
theorem chart_methods_unregistered :
    (∀ m ∈ methodNames, strStartsWith m "chart." = false) ∧
    ∀ (impl : String → Handler) (m : String) (id params : Option PyVal),
      strStartsWith m "chart." = true →
      process_request (method_dispatcher impl) (.env ⟨some (.pstr "2.0"), some m, id, params⟩) =
        some (create_error_response METHOD_NOT_FOUND none none id) := by
  have h1 : ∀ m ∈ methodNames, strStartsWith m "chart." = false := by decide
  refine ⟨h1, ?_⟩
  intro impl m id params hpre
  have hmem : m ∉ methodNames := fun hm => by
    rw [h1 m hm] at hpre
    exact Bool.false_ne_true hpre
  simp [process_request, method_dispatcher, hmem]

/-- Witness for C10 at the concrete method "chart.set_chart_type". -/
theorem chart_methods_unregistered_witness :
    process_request (method_dispatcher (fun _ => okHandler))
        (.env ⟨some (.pstr "2.0"), some "chart.set_chart_type", some (.pint 1), none⟩) =
      some (create_error_response METHOD_NOT_FOUND none none (some (.pint 1))) :=
  chart_methods_unregistered.2 (fun _ => okHandler) "chart.set_chart_type"
    (some (.pint 1)) none (by decide)

/-- C9 (evaluation at the failing input): numpy integer and bool scalar
wrappers are not unwrapped to native int/bool by serialize; they fall
through every branch to the string fallback. -/
theorem np_scalar_serialized_as_string :
    to_serializable (.npint 42) = .pstr "42" ∧
    to_serializable (.npbool true) = .pstr "True" ∧
    to_serializable (.npint 42) ≠ .pint 42 := by
  refine ⟨?_, ?_, ?_⟩
  · simp only [to_serializable]; rfl
  · simp only [to_serializable, npBoolStr]; rfl
  · simp [to_serializable]

/-- C5 (counterexample): the concrete `book.open` request for a missing
path produces the invalid-params code -32602, not the workbook-not-found
code -32001 the claim states. -/
theorem open_book_missing_code_cex :
    respCodeOf (process_request bookOpenLookup missingOpenEnv) = some INVALID_PARAMS ∧
    respCodeOf (process_request bookOpenLookup missingOpenEnv) ≠ some WORKBOOK_NOT_FOUND := by
  have h : respCodeOf (process_request bookOpenLookup missingOpenEnv) = some INVALID_PARAMS := by
    simp [process_request, bookOpenLookup, missingOpenEnv, invoke_handler, pyTruthy,
      book_open, dictGetStr, open_book, fsNone, handle_exception, strContains,
      create_error_response, respCodeOf, respErrCode]
    rw [if_neg (by decide), if_neg (by decide)]
  refine ⟨h, ?_⟩
  rw [h]
  simp [INVALID_PARAMS, WORKBOOK_NOT_FOUND]

/-- C5 (amended): a `book.open` call for a nonexistent path raises
`ValueError("File not found: <path>")` in the adapter, so the response
is the mapped error with code invalid-params (-32602), provided the
message does not accidentally match the chart-error text heuristics. -/
theorem open_book_missing_invalid_params (fs : String → Bool)
    (doOpen : String → Except PyException PyVal) (path : String) (id : Option PyVal)
    (lookup : String → Option Handler)
    (hl : lookup "book.open" = some (book_open fs doOpen))
    (hfs : fs path = false)
    (hc1 : strContains ("File not found: " ++ path) "Chart" = false)
    (hc2 : strContains ("File not found: " ++ path) "chart type" = false) :
    process_request lookup
        (.env ⟨some (.pstr "2.0"), some "book.open", id,
          some (.pdict [(.pstr "path", .pstr path)])⟩) =
      some (handle_exception (.valueError ("File not found: " ++ path)) id true) ∧
    respErrCode (handle_exception (.valueError ("File not found: " ++ path)) id true) =
      some INVALID_PARAMS := by
  constructor
  · simp [process_request, hl, invoke_handler, pyTruthy, book_open, dictGetStr,
      open_book, hfs]
  · simp [handle_exception, hc1, hc2, create_error_response, respErrCode]

/-- Witness for the amended C5 theorem on the concrete missing path. -/
theorem open_book_missing_invalid_params_witness :
    process_request bookOpenLookup
        (.env ⟨some (.pstr "2.0"), some "book.open", some (.pint 1),
          some (.pdict [(.pstr "path", .pstr "/missing.xlsx")])⟩) =
      some (handle_exception (.valueError ("File not found: " ++ "/missing.xlsx"))
        (some (.pint 1)) true) ∧
    respErrCode (handle_exception (.valueError ("File not found: " ++ "/missing.xlsx"))
        (some (.pint 1)) true) = some INVALID_PARAMS :=
  open_book_missing_invalid_params fsNone doOpenUnused "/missing.xlsx" (some (.pint 1))
    bookOpenLookup rfl rfl (by decide) (by decide)

/-- C8 (counterexample): attribute reads are not all guarded: an App
handle whose `pid` read raises makes the whole conversion raise (the
`{"id": obj.pid}` read has no try/except), so the exception propagates
out instead of being replaced by a sentinel. -/
theorem app_serialize_propagates_cex :
    serializeApp appPidBoom = .error (.otherError "COM failure") ∧
    ∀ out, serializeApp appPidBoom ≠ .ok out := by
  refine ⟨rfl, ?_⟩
  intro out h
  simp [serializeApp, appPidBoom] at h

/-- C8 (amended): host-handle serialization is guarded per attribute
read with two exceptions in the App branch: the `pid` read is
unguarded (its failure propagates) and a `calculation` `KeyError`
without `k.missing_value` in its text is re-raised; under those two
provisos App conversion succeeds, every guarded read on failure yields
its type-appropriate sentinel (null, `"unknown"`, or an empty
container) together with exactly one logged diagnostic naming the
field and the failure, the chart parent block is jointly guarded, and
Book/Sheet/Range/Chart conversions always return a dict and never an
exception. -/
theorem handle_serialization_guarded :
    (∀ (a : AppObj) (p : Int), a.pid = .ok p → calcOk a →
      (serializeApp a).isOk = true) ∧
    (∀ (a : AppObj) (e : PyException), a.pid = .error e → serializeApp a = .error e) ∧
    (∀ (a : AppObj) (p : Int) (m : String), a.pid = .ok p →
      a.calculation = .error (.keyError m) →
      strContains (strExc (.keyError m)) "k.missing_value" = false →
      serializeApp a = .error (.keyError m)) ∧
    (∀ v w e, v = .error e → guardedStr v w = (.pstr "unknown", [w ++ strExc e])) ∧
    (∀ v w e, v = .error e → guardedStrOrNone v w = (.pnone, [w ++ strExc e])) ∧
    (∀ v w e, v = .error e → guardedBoolOrNone v w = (.pnone, [w ++ strExc e])) ∧
    (∀ v w e, v = .error e → guardedIntOrNone v w = (.pnone, [w ++ strExc e])) ∧
    (∀ v w e, v = .error e → guardedFloatOrNone v w = (.pnone, [w ++ strExc e])) ∧
    (∀ v w e, v = .error e → guardedOptIntOrNone v w = (.pnone, [w ++ strExc e])) ∧
    (∀ v w e, v = .error e → guardedSheets v w = (.plist [], [w ++ strExc e])) ∧
    (∀ v w e, v = .error e → guardedSerialized v w = (.pnone, [w ++ strExc e])) ∧
    (∀ v w e, v = .error e → guardedShape v w = (.pnone, [w ++ strExc e])) ∧
    (∀ v e, v = .error e → chartParentEntries v =
      ([(.pstr "sheet_name", .pnone), (.pstr "book_name", .pnone)],
        ["Error getting chart parent info: " ++ strExc e])) ∧
    (∀ b : BookObj, ∃ kvs logs, serializeBook b = (.pdict kvs, logs)) ∧
    (∀ s : SheetObj, ∃ kvs logs, serializeSheet s = (.pdict kvs, logs)) ∧
    (∀ r : RangeObj, ∃ kvs logs, serializeRange r = (.pdict kvs, logs)) ∧
    (∀ c : ChartObj, ∃ kvs logs, serializeChart c = (.pdict kvs, logs)) := by
  refine ⟨?_, ?_, ?_, ?_, ?_, ?_, ?_, ?_, ?_, ?_, ?_, ?_, ?_, ?_, ?_, ?_, ?_⟩
  · intro a p hp hca
    cases hc : a.calculation with
    | ok c => simp [serializeApp, hp, hc, calcField, Except.isOk, Except.toBool]
    | error e =>
        cases e with
        | keyError m =>
            have hkm := hca m hc
            simp [serializeApp, hp, hc, calcField, hkm, Except.isOk, Except.toBool]
        | xlwingsError m => simp [serializeApp, hp, hc, calcField, Except.isOk, Except.toBool]
        | connectionError m => simp [serializeApp, hp, hc, calcField, Except.isOk, Except.toBool]
        | fileNotFoundError m => simp [serializeApp, hp, hc, calcField, Except.isOk, Except.toBool]
        | valueError m => simp [serializeApp, hp, hc, calcField, Except.isOk, Except.toBool]
        | permissionError m => simp [serializeApp, hp, hc, calcField, Except.isOk, Except.toBool]
        | timeoutError m => simp [serializeApp, hp, hc, calcField, Except.isOk, Except.toBool]
        | otherError m => simp [serializeApp, hp, hc, calcField, Except.isOk, Except.toBool]
  · intro a e hp
    simp [serializeApp, hp]
  · intro a p m hp hcm hfalse
    simp [serializeApp, hp, hcm, calcField, hfalse]
  · intro v w e hv; simp [guardedStr, hv]
  · intro v w e hv; simp [guardedStrOrNone, hv]
  · intro v w e hv; simp [guardedBoolOrNone, hv]
  · intro v w e hv; simp [guardedIntOrNone, hv]
  · intro v w e hv; simp [guardedFloatOrNone, hv]
  · intro v w e hv; simp [guardedOptIntOrNone, hv]
  · intro v w e hv; simp [guardedSheets, hv]
  · intro v w e hv; simp [guardedSerialized, hv]
  · intro v w e hv; simp [guardedShape, hv]
  · intro v e hv; simp [chartParentEntries, hv]
  · intro b; exact ⟨_, _, rfl⟩
  · intro s; exact ⟨_, _, rfl⟩
  · intro r; exact ⟨_, _, rfl⟩
  · intro c; exact ⟨_, _, rfl⟩

/-- Witness for the amended C8 theorem: a concrete App handle with a
successful `pid` read and a safe `calculation` read converts without
an exception. -/
theorem handle_serialization_guarded_witness :
    (serializeApp appAllOk).isOk = true :=
  handle_serialization_guarded.1 appAllOk 7 rfl (by intro m hm; simp [appAllOk] at hm)

/-- Witness for the amended C7 theorem on a concrete one-cell
dataframe with primitive labels and value. -/
theorem dataframe_roundtrip_prim_witness :
    from_json_value (to_serializable (.dataframe [.pint 0] [.pstr "a"] [[.pint 5]])) =
      .ok (.dataframe [.pint 0] [.pstr "a"] [[.pint 5]]) :=
  dataframe_roundtrip_prim [.pint 0] [.pstr "a"] [[.pint 5]]
    (by decide) (by decide) (by decide) (by decide) (by decide)
